import Mathlib

/-!
Verification of the pathway-MCP-agent repository: a shallow embedding in
Lean 4 of the gene-list normalization, tabular gene extraction, enrichment
report formatting, interaction report formatting, score banding, STRING
request construction, and bar-chart rendering logic, together with theorems
settling the specification claims.

Python strings are modelled by Lean `String` restricted to their ASCII
behaviour (gene symbols and column names are ASCII in practice); Python
floats are modelled by `ℚ`; a raised Python exception is modelled by the
`Except`/error side of a result type.
-/

namespace PathwayAgent

/-! ### ASCII models of the Python string methods used by the code -/

/-- The characters stripped by the default `str.strip()` (ASCII fragment). -/
def pyIsSpace (c : Char) : Bool :=
  c = ' ' || c = '\t' || c = '\n' || c = '\r' || c = '\x0b' || c = '\x0c'

/-- `str.strip()` on the character list: drop leading and trailing whitespace. -/
def stripChars (l : List Char) : List Char :=
  ((l.dropWhile pyIsSpace).reverse.dropWhile pyIsSpace).reverse

/-- Model of Python `str.strip()`. -/
def pyStrip (s : String) : String := ⟨stripChars s.data⟩

/-- Model of Python `str.upper()` (ASCII fragment): `Char.toUpper` maps
`a`-`z` to `A`-`Z` and fixes everything else, as Python does on ASCII. -/
def pyUpper (s : String) : String := ⟨s.data.map Char.toUpper⟩

/-- Model of Python `str.lower()` (ASCII fragment). -/
def pyLower (s : String) : String := ⟨s.data.map Char.toLower⟩

/-- Boolean ASCII lower-case-letter test (`a` through `z`). -/
def isAsciiLower (c : Char) : Bool :=
  decide (97 ≤ c.toNat) && decide (c.toNat ≤ 122)

/-- Python `"\n".join(lines)`. -/
def joinLines (lines : List String) : String := String.intercalate "\n" lines

/-- Python `", ".join(items)`. -/
def joinComma (items : List String) : String := String.intercalate ", " items

/-! ### file_reader.py -/

/-- A parsed pandas `DataFrame`, as delivered by the external tabular
parsers (`pd.read_csv` / `pd.read_excel`): named columns in table order,
each holding cell values where `none` models a missing (NaN) cell, plus the
row count `len(df)`. -/
structure DataFrame where
  cols : List (String × List (Option String))
  nRows : Nat
deriving DecidableEq

/-- `list(df.columns)`: the column names in table order. -/
def DataFrame.colNames (df : DataFrame) : List String := df.cols.map Prod.fst

/-- `df[c]`: the values of column `c` (empty when absent; `read_gene_list`
only evaluates this after checking membership). -/
def DataFrame.getCol (df : DataFrame) (c : String) : List (Option String) :=
  (((df.cols.find? (fun p => p.1 = c))).map Prod.snd).getD []

/-- The `common_names` alias list of `detect_gene_column`, verbatim. -/
def common_names : List String :=
  ["gene", "genes", "gene_symbol", "gene_name", "symbol",
   "Gene", "Genes", "Gene_Symbol", "Gene_Name", "Symbol",
   "GENE", "GENES", "GENE_SYMBOL", "GENE_NAME", "SYMBOL",
   "geneid", "gene_id", "GeneID", "Gene_ID"]

/-- The per-column test of `detect_gene_column`:
`col in common_names or col.lower() in [n.lower() for n in common_names]`. -/
def aliasMatch (col : String) : Bool :=
  common_names.contains col || (common_names.map pyLower).contains (pyLower col)

/-- `detect_gene_column(df)`: first column whose name passes `aliasMatch`,
else `None`. -/
def detect_gene_column (df : DataFrame) : Option String :=
  df.colNames.find? aliasMatch

/-- Lines 46-47 of `file_reader.py`:
`df[col].dropna().astype(str).str.strip().str.upper().tolist()` followed by
`[g for g in genes if g and g != 'NAN']`. -/
def normalize_genes (vals : List (Option String)) : List String :=
  ((vals.filterMap id).map (fun s => pyUpper (pyStrip s))).filter
    (fun g => !(g == "") && !(g == "NAN"))

/-- The hard errors `read_gene_list` can raise: `FileNotFoundError`, the
two `ValueError`s, and the `IndexError` from `df.columns[0]` on a table
with no columns. -/
inductive ReadError where
  | fileNotFound (msg : String)
  | unsupportedFormat (msg : String)
  | columnNotFound (msg : String)
  | indexError (msg : String)
deriving DecidableEq

/-- The three hard-error kinds the specification enumerates for the
tabular gene extraction (FileNotFound, UnsupportedFormat, ColumnNotFound);
the IndexError raised by `df.columns[0]` on a zero-column table is not
among them. -/
def ReadError.isEnumeratedKind : ReadError → Bool
  | .fileNotFound _ => true
  | .unsupportedFormat _ => true
  | .columnNotFound _ => true
  | .indexError _ => false

/-- Metadata dictionary returned by `read_gene_list`. -/
structure FileMetadata where
  file : String
  total_rows : Nat
  gene_column : String
  gene_count : Nat
  columns : List String
deriving DecidableEq

/-- Python `repr` of a list of strings, as interpolated into the
column-not-found message by `f"... \x7blist(df.columns)\x7d"`. -/
def pyListReprCore : List String → List Char
  | [] => []
  | [c] => '\x27' :: (c.data ++ ['\x27'])
  | c :: rest => '\x27' :: (c.data ++ ['\x27', ',', ' ']) ++ pyListReprCore rest

/-- Python `repr` of a list of strings. -/
def pyListRepr (cols : List String) : String :=
  "[" ++ String.mk (pyListReprCore cols) ++ "]"

/-- The message of the column-not-found `ValueError`, enumerating the
available columns. -/
def columnNotFoundMsg (c : String) (cols : List String) : String :=
  "Column \x27" ++ c ++ "\x27 does not exist. Available columns: " ++ pyListRepr cols

/-- The extension dispatch of `read_gene_list`: `.csv`, `.xlsx`/`.xls`,
`.tsv`/`.txt` are readable, anything else raises. -/
def supportedSuffix (sfx : String) : Bool :=
  sfx == ".csv" || sfx == ".xlsx" || sfx == ".xls" || sfx == ".tsv" || sfx == ".txt"

/-- `read_gene_list(file_path, gene_column, sheet_name)`.  The filesystem
and the external parsers are modelled by the arguments: `pathExists` is
`path.exists()`, `suffix` is `path.suffix`, and `df` is the `DataFrame`
the format-specific reader would return for this file.  The sheet selector
only feeds the external Excel parser and is absorbed into `df`. -/
def read_gene_list (file_path : String) (pathExists : Bool) (suffix : String)
    (df : DataFrame) (gene_column : Option String) :
    Except ReadError (List String × FileMetadata) :=
  if !pathExists then
    .error (.fileNotFound ("File not found: " ++ file_path))
  else
    let sfx := pyLower suffix
    if !(supportedSuffix sfx) then
      .error (.unsupportedFormat ("Unsupported file format: " ++ sfx))
    else
      let resolved : Except ReadError String :=
        match gene_column with
        | some c => .ok c
        | none =>
          match detect_gene_column df with
          | some c => .ok c
          | none =>
            match df.colNames with
            | [] => .error (.indexError "index 0 is out of bounds for axis 0 with size 0")
            | c :: _ => .ok c
      match resolved with
      | .error e => .error e
      | .ok c =>
        if !(df.colNames.contains c) then
          .error (.columnNotFound (columnNotFoundMsg c df.colNames))
        else
          let genes := normalize_genes (df.getCol c)
          .ok (genes,
            { file := file_path, total_rows := df.nRows, gene_column := c,
              gene_count := genes.length, columns := df.colNames })

/-! ### stringdb.py -/

/-- The query parameters `get_interaction` passes to `httpx` for the
`/json/network` endpoint, in source order.  Note the identifiers value is
built by the f-string as the literal three characters `%0d` between the two
symbols. -/
def get_interaction_params (gene_a gene_b : String) (species : Int) :
    List (String × String) :=
  [("identifiers", gene_a ++ "%0d" ++ gene_b),
   ("species", toString species),
   ("caller_identity", "pathway-mcp-agent")]

/-- Look up a query parameter by key. -/
def paramValue (params : List (String × String)) (key : String) : Option String :=
  (params.find? (fun p => p.1 = key)).map Prod.snd

/-- Characters `httpx` leaves unescaped when URL-encoding a query value
(unreserved set). -/
def urlUnreserved (c : Char) : Bool :=
  (decide (65 ≤ c.toNat) && decide (c.toNat ≤ 90)) ||
  (decide (97 ≤ c.toNat) && decide (c.toNat ≤ 122)) ||
  (decide (48 ≤ c.toNat) && decide (c.toNat ≤ 57)) ||
  c = '-' || c = '.' || c = '_' || c = '~'

/-- Upper-case hexadecimal digit. -/
def hexDigit (n : Nat) : Char :=
  if n < 10 then Char.ofNat (48 + n) else Char.ofNat (55 + n)

/-- Percent-encoding of one character (ASCII fragment). -/
def percentEncodeChar (c : Char) : List Char :=
  if urlUnreserved c then [c]
  else ['%', hexDigit (c.toNat / 16), hexDigit (c.toNat % 16)]

/-- Hexadecimal-digit test (`0-9`, `A-F`, `a-f`). -/
def isHexDigitChar (c : Char) : Bool :=
  (decide (48 ≤ c.toNat) && decide (c.toNat ≤ 57)) ||
  (decide (65 ≤ c.toNat) && decide (c.toNat ≤ 70)) ||
  (decide (97 ≤ c.toNat) && decide (c.toNat ≤ 102))

/-- Value of a hexadecimal digit. -/
def hexVal (c : Char) : Nat :=
  if 48 ≤ c.toNat ∧ c.toNat ≤ 57 then c.toNat - 48
  else if 65 ≤ c.toNat ∧ c.toNat ≤ 70 then c.toNat - 55
  else if 97 ≤ c.toNat ∧ c.toNat ≤ 102 then c.toNat - 87
  else 0

/-- The URL quoting httpx (0.24 and later, as pinned transitively by the
mcp dependency) applies to a query-parameter value: characters outside
the unreserved set are percent-encoded, but an already-valid `%xx` escape
sequence in the value is deliberately left intact rather than re-encoded
(httpx issue 2536). -/
def httpxQuoteChars : List Char → List Char
  | [] => []
  | '%' :: h1 :: h2 :: rest =>
    if isHexDigitChar h1 && isHexDigitChar h2 then
      '%' :: h1 :: h2 :: httpxQuoteChars rest
    else percentEncodeChar '%' ++ httpxQuoteChars (h1 :: h2 :: rest)
  | c :: rest => percentEncodeChar c ++ httpxQuoteChars rest

/-- The form a query-parameter value takes on the wire after httpx
URL-encodes it (the model of what is actually transmitted). -/
def transmittedValue (v : String) : String :=
  ⟨httpxQuoteChars v.data⟩

/-- Standard percent-decoding of a wire-form value, as the receiving
server applies it: a valid `%xx` escape denotes the character with code
`xx`; everything else stands for itself. -/
def percentDecodeChars : List Char → List Char
  | [] => []
  | '%' :: h1 :: h2 :: rest =>
    if isHexDigitChar h1 && isHexDigitChar h2 then
      Char.ofNat (16 * hexVal h1 + hexVal h2) :: percentDecodeChars rest
    else '%' :: percentDecodeChars (h1 :: h2 :: rest)
  | c :: rest => c :: percentDecodeChars rest

/-- The query-parameter value the server receives after decoding the wire
form. -/
def percentDecode (v : String) : String :=
  ⟨percentDecodeChars v.data⟩

/-- Decimal model of the Python float format `:.3f` (rounding of the
underlying binary float at the fourth decimal is abstracted to
round-half-up on `ℚ`; no claim depends on tie behaviour). -/
def formatFixed3 (q : ℚ) : String :=
  let n : Int := ⌊q * 1000 + 1/2⌋
  let whole := n / 1000
  let frac := (n % 1000).toNat
  toString whole ++ "." ++
    (if frac < 10 then "00" else if frac < 100 then "0" else "") ++ toString frac

/-- `format_score(score)` from `stringdb.py`: fixed three-decimal rendering
of the score followed by the parenthesized confidence band, selected by the
if/elif chain with lower-bound-inclusive thresholds 0.9 / 0.7 / 0.4. -/
def format_score (score : ℚ) : String :=
  if score ≥ 9/10 then formatFixed3 score ++ " (highest confidence)"
  else if score ≥ 7/10 then formatFixed3 score ++ " (high confidence)"
  else if score ≥ 4/10 then formatFixed3 score ++ " (medium confidence)"
  else formatFixed3 score ++ " (low confidence)"

/-! ### server.py: enrichment report (perform_enrichment, lines 48-65) -/

/-- One ranked Enrichr term.  Enrichr delivers each term as a positional
array; the fields the code indexes are `term[1]` (name), `term[2]`
(p-value) and `term[5]` (overlapping genes); `term[0]`, `term[3]`, `term[4]`
are the rank, z-score and combined score. -/
structure EnrichmentTerm where
  rank : Nat
  name : String
  pValue : ℚ
  zScore : ℚ
  combinedScore : ℚ
  genes : List String
deriving DecidableEq

/-- Python `enumerate(l, 1)`. -/
def enumerate1 {α : Type} (l : List α) : List (Nat × α) :=
  l.enum.map (fun p => (p.1 + 1, p.2))

/-- The numbered entries of the enrichment report: the ranked result list
is truncated by `terms = enrichment_result[database][:top_n]` and then
enumerated from 1 by `for i, term in enumerate(terms, 1)`. -/
def perform_enrichment_entries (allTerms : List EnrichmentTerm) (top_n : Nat) :
    List (Nat × EnrichmentTerm) :=
  enumerate1 (allTerms.take top_n)

/-- The success-path report text of `perform_enrichment` given the ranked
terms the enrichment service returned for `database`.  `fmtE` abstracts the
Python float format `:.2e` used for the p-value line (transcendental
base-10 float formatting; no claim depends on its output). -/
def perform_enrichment_report (fmtE : ℚ → String) (database : String)
    (gene_list : List String) (allTerms : List EnrichmentTerm) (top_n : Nat) : String :=
  joinLines
    ([ "Enrichr result for " ++ database,
       "Database: " ++ database,
       "Gene count: " ++ toString gene_list.length,
       "Enriched term count: " ++ toString allTerms.length,
       "Top " ++ toString top_n ++ " terms:" ]
     ++ (perform_enrichment_entries allTerms top_n).flatMap (fun p =>
          [ toString p.1 ++ ". **" ++ p.2.name ++ "**",
            "   - P-value: " ++ fmtE p.2.pValue,
            "   - gene: " ++ joinComma p.2.genes ]))

/-! ### server.py: pair interaction report (explain_mechanism, lines 192-250) -/

/-- One edge of the STRING `/json/network` response: the two preferred
endpoint names, the combined score, and whichever evidence-channel fields
the JSON item carries (an item is a JSON object; `channels` holds its
channel keys in an association list). -/
structure InteractionEdge where
  preferredName_A : String
  preferredName_B : String
  score : ℚ
  channels : List (String × ℚ)
deriving DecidableEq

/-- `key in target_interaction` for a channel key. -/
def InteractionEdge.hasKey (e : InteractionEdge) (k : String) : Bool :=
  (e.channels.find? (fun p => p.1 = k)).isSome

/-- `target_interaction[key]` for a channel key (0 when absent; only read
after `hasKey`). -/
def InteractionEdge.getKey (e : InteractionEdge) (k : String) : ℚ :=
  ((e.channels.find? (fun p => p.1 = k)).map Prod.snd).getD 0

/-- The `evidence` dict of `explain_mechanism`, in insertion order. -/
def evidence_names : List (String × String) :=
  [("nscore", "Gene Neighborhood"),
   ("fscore", "Gene Fusion"),
   ("pscore", "Phylogenetic Profiles"),
   ("ascore", "Co-expression"),
   ("escore", "Experimental"),
   ("dscore", "Database"),
   ("tscore", "Text Mining")]

/-- The match condition of the scan loop in `explain_mechanism`: the edge
endpoint names equal the two upper-cased query symbols in either order. -/
def matches_pair (gene_a gene_b : String) (e : InteractionEdge) : Bool :=
  (e.preferredName_A == pyUpper gene_a && e.preferredName_B == pyUpper gene_b) ||
  (e.preferredName_A == pyUpper gene_b && e.preferredName_B == pyUpper gene_a)

/-- The qualitative interpretation sentence of `explain_mechanism`. -/
def interpretation_line (score : ℚ) : String :=
  if score ≥ 9/10 then
    "These genes have a **very strong** interaction with highest confidence."
  else if score ≥ 7/10 then
    "These genes have a **strong** interaction with high confidence."
  else if score ≥ 4/10 then
    "These genes have a **moderate** interaction with medium confidence."
  else
    "These genes have a **weak** or poorly characterized interaction."

/-- The `result_lines` list built by `explain_mechanism` for the matched
edge: header, combined score via `format_score`, one line per evidence
channel that is present with value strictly greater than 0, then the
interpretation. -/
def interaction_report_lines (gene_a gene_b : String) (e : InteractionEdge) :
    List String :=
  [ "## Interaction: " ++ gene_a ++ " ↔ " ++ gene_b,
    "",
    "### Combined Score: " ++ format_score e.score,
    "",
    "### Evidence Channels:" ]
  ++ (evidence_names.filterMap (fun kn =>
        if e.hasKey kn.1 && decide (e.getKey kn.1 > 0) then
          some ("- **" ++ kn.2 ++ "**: " ++ formatFixed3 (e.getKey kn.1))
        else none))
  ++ [ "", "### Interpretation", interpretation_line e.score ]

/-- The sentence for a falsy (`None` or empty) network response. -/
def no_data_msg (gene_a gene_b : String) : String :=
  "No interaction data found between " ++ gene_a ++ " and " ++ gene_b

/-- The sentence for a non-empty response in which no edge matches. -/
def no_direct_msg (gene_a gene_b : String) : String :=
  "No direct interaction found between " ++ gene_a ++ " and " ++ gene_b

/-- `explain_mechanism(gene_a, gene_b, species)` given the response of
`get_interaction` (`none` models the soft-failed `None`).  Python
`if not interactions` treats both `None` and the empty list as absent;
the scan loop with `break` is `List.find?`. -/
def explain_mechanism (gene_a gene_b : String)
    (interactions : Option (List InteractionEdge)) : String :=
  match interactions with
  | none => no_data_msg gene_a gene_b
  | some items =>
    if items.isEmpty then no_data_msg gene_a gene_b
    else
      match items.find? (matches_pair gene_a gene_b) with
      | none => no_direct_msg gene_a gene_b
      | some e => joinLines (interaction_report_lines gene_a gene_b e)

/-! ### visualization.py -/

/-- What `create_enrichment_barplot` did on success: the returned string
and the path the figure was written to (`none` when no file was created). -/
structure PlotOutcome where
  ret : String
  saved : Option String
deriving DecidableEq

/-- Python division, which raises `ZeroDivisionError` on a zero
denominator instead of returning a value. -/
def pyDiv (a b : ℚ) : Except String ℚ :=
  if b = 0 then .error "float division by zero" else .ok (a / b)

/-- Python `max` over a non-empty list. -/
def pyMax : List ℚ → ℚ
  | [] => 0
  | x :: xs => xs.foldl max x

/-- `create_enrichment_barplot(terms, title, output_path)`.  `nl10`
abstracts the transcendental `-math.log10` applied to a positive p-value
(the clamp-to-0 branch for `p <= 0` is explicit in the code); the plotting
library calls are effect-free in the model except for the final
`plt.savefig`, recorded in the outcome.  A `.error` result models an
exception escaping the function. -/
def create_enrichment_barplot (nl10 : ℚ → ℚ) (terms : List EnrichmentTerm)
    (output_path : Option String) : Except String PlotOutcome :=
  if terms.isEmpty then .ok { ret := "No terms to plot", saved := none }
  else
    let names := terms.map (fun t =>
      if t.name.length > 45 then t.name.take 42 ++ "..." else t.name)
    let p_values := terms.map (fun t => t.pValue)
    let neg_log_p := p_values.map (fun p => if p > 0 then nl10 p else 0)
    let max_val := if neg_log_p.isEmpty then 1 else pyMax neg_log_p
    match neg_log_p.mapM (fun p => pyDiv p max_val) with
    | .error e => .error e
    | .ok _colors =>
      let path := match output_path with
        | none => "enrichment_plot.png"
        | some p => p
      let _ := names
      .ok { ret := path, saved := some path }

/-! ### Character-level helper lemmas -/

theorem char_eq_of_toNat_eq {c d : Char} (h : c.toNat = d.toNat) : c = d :=
  Char.eq_of_val_eq (UInt32.toNat.inj h)

theorem toNat_ofNat_of_valid {n : Nat} (h : n.isValidChar) :
    (Char.ofNat n).toNat = n := by
  unfold Char.ofNat
  rw [dif_pos h]
  simp [Char.ofNatAux, Char.toNat, UInt32.toNat, Nat.toUInt32]

theorem toUpper_toNat_of_lower {c : Char} (h : 97 ≤ c.toNat ∧ c.toNat ≤ 122) :
    (Char.toUpper c).toNat = c.toNat - 32 := by
  unfold Char.toUpper
  rw [if_pos ⟨h.1, h.2⟩]
  exact toNat_ofNat_of_valid (Or.inl (by omega))

theorem toUpper_eq_of_not_lower {c : Char} (h : ¬(97 ≤ c.toNat ∧ c.toNat ≤ 122)) :
    Char.toUpper c = c := by
  unfold Char.toUpper
  rw [if_neg h]

theorem isAsciiLower_toUpper (c : Char) : isAsciiLower (Char.toUpper c) = false := by
  by_cases h : 97 ≤ c.toNat ∧ c.toNat ≤ 122
  · have ht := toUpper_toNat_of_lower h
    simp only [isAsciiLower, ht]
    simp only [Bool.and_eq_false_iff, decide_eq_false_iff_not]
    omega
  · rw [toUpper_eq_of_not_lower h]
    simp only [isAsciiLower, Bool.and_eq_false_iff, decide_eq_false_iff_not]
    omega

theorem pyIsSpace_eq_false_of_ge {c : Char} (h : 33 ≤ c.toNat) :
    pyIsSpace c = false := by
  have h1 : c ≠ ' ' := fun hc => absurd (hc ▸ h) (by decide)
  have h2 : c ≠ '\t' := fun hc => absurd (hc ▸ h) (by decide)
  have h3 : c ≠ '\n' := fun hc => absurd (hc ▸ h) (by decide)
  have h4 : c ≠ '\r' := fun hc => absurd (hc ▸ h) (by decide)
  have h5 : c ≠ '\x0b' := fun hc => absurd (hc ▸ h) (by decide)
  have h6 : c ≠ '\x0c' := fun hc => absurd (hc ▸ h) (by decide)
  simp [pyIsSpace, h1, h2, h3, h4, h5, h6]

theorem pyIsSpace_toUpper (c : Char) : pyIsSpace (Char.toUpper c) = pyIsSpace c := by
  by_cases h : 97 ≤ c.toNat ∧ c.toNat ≤ 122
  · have ht := toUpper_toNat_of_lower h
    rw [pyIsSpace_eq_false_of_ge (by omega), pyIsSpace_eq_false_of_ge (by omega)]
  · rw [toUpper_eq_of_not_lower h]

/-! ### List-level helper lemmas -/

theorem head?_stripChars (l : List Char) :
    ∀ c ∈ (stripChars l).head?, pyIsSpace c = false := by
  intro c hc
  unfold stripChars at hc
  have hsfx : (l.dropWhile pyIsSpace).reverse.dropWhile pyIsSpace
      <:+ (l.dropWhile pyIsSpace).reverse := List.dropWhile_suffix _
  have hpfx : ((l.dropWhile pyIsSpace).reverse.dropWhile pyIsSpace).reverse
      <+: l.dropWhile pyIsSpace := by
    have := List.reverse_prefix.mpr hsfx
    simpa using this
  obtain ⟨t, ht⟩ := hpfx
  have hmhead : (l.dropWhile pyIsSpace).head? = some c := by
    rw [← ht, List.head?_append]
    simp only [Option.mem_def] at hc
    rw [hc]
    rfl
  have := List.head?_dropWhile_not pyIsSpace l
  rw [hmhead] at this
  exact this

theorem getLast?_stripChars (l : List Char) :
    ∀ c ∈ (stripChars l).getLast?, pyIsSpace c = false := by
  intro c hc
  unfold stripChars at hc
  rw [List.getLast?_reverse] at hc
  have := List.head?_dropWhile_not pyIsSpace (l.dropWhile pyIsSpace).reverse
  simp only [Option.mem_def] at hc
  rw [hc] at this
  exact this

theorem find?_eq_get_of_first {α : Type} (p : α → Bool) (l : List α) (i : Nat)
    (hi : i < l.length) (hp : p (l.get ⟨i, hi⟩) = true)
    (hmin : ∀ j (hj : j < i), p (l.get ⟨j, Nat.lt_trans hj hi⟩) = false) :
    l.find? p = some (l.get ⟨i, hi⟩) := by
  induction l generalizing i with
  | nil => simp at hi
  | cons x xs ih =>
    cases i with
    | zero =>
      simp only [List.get] at hp
      simp [List.find?_cons, hp]
    | succ n =>
      have hx : p x = false := hmin 0 (Nat.succ_pos n)
      have hn : n < xs.length := Nat.lt_of_succ_lt_succ hi
      rw [List.find?_cons, hx]
      exact ih n hn hp (fun j hj => hmin (j + 1) (Nat.succ_lt_succ hj))

/-! ### Claim theorems -/

theorem urlUnreserved_ne_percent {c : Char} (h : urlUnreserved c = true) :
    c ≠ '%' := by
  intro hc
  subst hc
  exact absurd h (by decide)

theorem httpxQuoteChars_cons_ne_percent (c : Char) (l : List Char)
    (hc : c ≠ '%') :
    httpxQuoteChars (c :: l) = percentEncodeChar c ++ httpxQuoteChars l := by
  cases l with
  | nil => simp [httpxQuoteChars]
  | cons h1 rest =>
    cases rest with
    | nil => simp [httpxQuoteChars]
    | cons h2 rest2 => simp [httpxQuoteChars, hc]

theorem percentDecodeChars_cons_ne_percent (c : Char) (l : List Char)
    (hc : c ≠ '%') :
    percentDecodeChars (c :: l) = c :: percentDecodeChars l := by
  cases l with
  | nil => simp [percentDecodeChars]
  | cons h1 rest =>
    cases rest with
    | nil => simp [percentDecodeChars]
    | cons h2 rest2 => simp [percentDecodeChars, hc]

/-- Quoting passes a run of unreserved characters through unchanged. -/
theorem httpxQuoteChars_unres_append (l t : List Char)
    (hl : ∀ c ∈ l, urlUnreserved c = true) :
    httpxQuoteChars (l ++ t) = l ++ httpxQuoteChars t := by
  induction l with
  | nil => rfl
  | cons c rest ih =>
    have hc := hl c (List.mem_cons_self c rest)
    rw [List.cons_append,
      httpxQuoteChars_cons_ne_percent c (rest ++ t) (urlUnreserved_ne_percent hc),
      percentEncodeChar, if_pos hc,
      ih (fun d hd => hl d (List.mem_cons_of_mem c hd))]
    rfl

/-- Decoding passes a run of unreserved characters through unchanged. -/
theorem percentDecodeChars_unres_append (l t : List Char)
    (hl : ∀ c ∈ l, urlUnreserved c = true) :
    percentDecodeChars (l ++ t) = l ++ percentDecodeChars t := by
  induction l with
  | nil => rfl
  | cons c rest ih =>
    have hc := hl c (List.mem_cons_self c rest)
    rw [List.cons_append,
      percentDecodeChars_cons_ne_percent c (rest ++ t) (urlUnreserved_ne_percent hc),
      ih (fun d hd => hl d (List.mem_cons_of_mem c hd))]
    rfl

/-- Quoting leaves the valid escape `%0d` intact. -/
theorem httpxQuoteChars_escape_0d (t : List Char) :
    httpxQuoteChars ('%' :: '0' :: 'd' :: t)
      = '%' :: '0' :: 'd' :: httpxQuoteChars t := by
  rw [httpxQuoteChars]
  rw [if_pos (by decide)]

/-- The escape `%0d` decodes to a carriage return. -/
theorem percentDecodeChars_escape_0d (t : List Char) :
    percentDecodeChars ('%' :: '0' :: 'd' :: t)
      = '\r' :: percentDecodeChars t := by
  rw [percentDecodeChars]
  rw [if_pos (by decide)]
  norm_num [hexVal]
  decide

/-- C1: for gene symbols made of URL-unreserved characters (letters,
digits, `-`, `.`, `_`, `~`), the pair-interaction fetch transmits the two
symbols joined by a carriage-return separator in the `identifiers` query
parameter: the code builds the value `geneA%0dgeneB`, httpx (0.24+, as
pinned transitively through the mcp dependency) leaves the valid `%0d`
escape intact so that exact string is the wire form, and the value the
parameter carries as transmitted — its percent-decoding — is geneA, a
carriage-return character, then geneB.  The fixed caller-identity tag is
included alongside. -/
theorem c1_identifiers_cr_joined_transmission (gene_a gene_b : String)
    (ha : ∀ c ∈ gene_a.data, urlUnreserved c = true)
    (hb : ∀ c ∈ gene_b.data, urlUnreserved c = true) :
    paramValue (get_interaction_params gene_a gene_b 9606) "identifiers"
      = some (gene_a ++ "%0d" ++ gene_b)
  ∧ transmittedValue (gene_a ++ "%0d" ++ gene_b) = gene_a ++ "%0d" ++ gene_b
  ∧ percentDecode (transmittedValue (gene_a ++ "%0d" ++ gene_b))
      = gene_a ++ "\r" ++ gene_b
  ∧ paramValue (get_interaction_params gene_a gene_b 9606) "caller_identity"
      = some "pathway-mcp-agent" := by
  have hdata : (gene_a ++ "%0d" ++ gene_b).data
      = gene_a.data ++ ('%' :: '0' :: 'd' :: gene_b.data) := by
    simp [String.data_append]
  have hqnil : httpxQuoteChars [] = [] := by simp [httpxQuoteChars]
  have hdnil : percentDecodeChars [] = [] := by simp [percentDecodeChars]
  have hquote : httpxQuoteChars (gene_a ++ "%0d" ++ gene_b).data
      = (gene_a ++ "%0d" ++ gene_b).data := by
    rw [hdata, httpxQuoteChars_unres_append gene_a.data _ ha,
      httpxQuoteChars_escape_0d]
    have hgb := httpxQuoteChars_unres_append gene_b.data [] hb
    rw [hqnil, List.append_nil] at hgb
    rw [hgb]
  have htrans : transmittedValue (gene_a ++ "%0d" ++ gene_b)
      = gene_a ++ "%0d" ++ gene_b := by
    rw [transmittedValue, hquote]
  refine ⟨rfl, htrans, ?_, rfl⟩
  rw [htrans, percentDecode]
  have hdec : percentDecodeChars (gene_a ++ "%0d" ++ gene_b).data
      = (gene_a ++ "\r" ++ gene_b).data := by
    rw [hdata, percentDecodeChars_unres_append gene_a.data _ ha,
      percentDecodeChars_escape_0d]
    have hgb := percentDecodeChars_unres_append gene_b.data [] hb
    rw [hdnil, List.append_nil] at hgb
    rw [hgb]
    simp [String.data_append]
  rw [hdec]

/-- Witness for C1: the theorem applied at the gene pair (TP53, MDM2),
whose symbols are unreserved: the constructed value `TP53%0dMDM2` is its
own wire form and decodes to `TP53`, carriage return, `MDM2`, and the
caller-identity tag rides along. -/
theorem c1_identifiers_cr_joined_transmission_witness :
    paramValue (get_interaction_params "TP53" "MDM2" 9606) "identifiers"
      = some ("TP53" ++ "%0d" ++ "MDM2")
  ∧ transmittedValue ("TP53" ++ "%0d" ++ "MDM2") = "TP53" ++ "%0d" ++ "MDM2"
  ∧ percentDecode (transmittedValue ("TP53" ++ "%0d" ++ "MDM2"))
      = "TP53" ++ "\r" ++ "MDM2"
  ∧ paramValue (get_interaction_params "TP53" "MDM2" 9606) "caller_identity"
      = some "pathway-mcp-agent" :=
  c1_identifiers_cr_joined_transmission "TP53" "MDM2" (by decide) (by decide)

/-- Evaluation helper for `formatFixed3` once the scaled floor is known. -/
theorem formatFixed3_eval (q : ℚ) (n : Int) (h : ⌊q * 1000 + 1/2⌋ = n) :
    formatFixed3 q = toString (n / 1000) ++ "." ++
      (if (n % 1000).toNat < 10 then "00"
       else if (n % 1000).toNat < 100 then "0" else "") ++
      toString (n % 1000).toNat := by
  simp only [formatFixed3, h]

/-- C4: `format_score` maps every score to exactly one confidence band,
with boundaries inclusive on the lower bound: the four conditions
`s ≥ 0.9`, `0.7 ≤ s < 0.9`, `0.4 ≤ s < 0.7`, `s < 0.4` partition the
scores and select the bands highest/high/medium/low confidence, and the
boundary scores 0.9, 0.7, 0.4 land in the upper band. -/
theorem c4_format_score_bands (s : ℚ) :
    (s ≥ 9/10 → format_score s = formatFixed3 s ++ " (highest confidence)")
  ∧ (7/10 ≤ s ∧ s < 9/10 → format_score s = formatFixed3 s ++ " (high confidence)")
  ∧ (4/10 ≤ s ∧ s < 7/10 → format_score s = formatFixed3 s ++ " (medium confidence)")
  ∧ (s < 4/10 → format_score s = formatFixed3 s ++ " (low confidence)")
  ∧ format_score (9/10) = "0.900 (highest confidence)"
  ∧ format_score (7/10) = "0.700 (high confidence)"
  ∧ format_score (4/10) = "0.400 (medium confidence)" := by
  refine ⟨?_, ?_, ?_, ?_, ?_, ?_, ?_⟩
  · intro h
    rw [format_score, if_pos h]
  · intro h
    rw [format_score, if_neg (by linarith), if_pos h.1]
  · intro h
    rw [format_score, if_neg (by linarith), if_neg (by linarith), if_pos h.1]
  · intro h
    rw [format_score, if_neg (by linarith), if_neg (by linarith),
      if_neg (by linarith)]
  · rw [format_score, if_pos (by norm_num),
      formatFixed3_eval (9/10) 900 (Int.floor_eq_iff.mpr ⟨by norm_num, by norm_num⟩)]
    decide
  · rw [format_score, if_neg (by norm_num), if_pos (by norm_num),
      formatFixed3_eval (7/10) 700 (Int.floor_eq_iff.mpr ⟨by norm_num, by norm_num⟩)]
    decide
  · rw [format_score, if_neg (by norm_num), if_neg (by norm_num),
      if_pos (by norm_num),
      formatFixed3_eval (4/10) 400 (Int.floor_eq_iff.mpr ⟨by norm_num, by norm_num⟩)]
    decide

/-- Witness for C4: the theorem applied at the concrete scores 0.95, 0.75,
0.5 and 0.1, discharging the band hypotheses there. -/
theorem c4_format_score_bands_witness :
    format_score (95/100) = formatFixed3 (95/100) ++ " (highest confidence)"
  ∧ format_score (75/100) = formatFixed3 (75/100) ++ " (high confidence)"
  ∧ format_score (5/10) = formatFixed3 (5/10) ++ " (medium confidence)"
  ∧ format_score (1/10) = formatFixed3 (1/10) ++ " (low confidence)"
  ∧ formatFixed3 (95/100) = "0.950" := by
  refine ⟨(c4_format_score_bands (95/100)).1 (by norm_num),
    (c4_format_score_bands (75/100)).2.1 ⟨by norm_num, by norm_num⟩,
    (c4_format_score_bands (5/10)).2.2.1 ⟨by norm_num, by norm_num⟩,
    (c4_format_score_bands (1/10)).2.2.2.1 (by norm_num), ?_⟩
  rw [formatFixed3_eval (95/100) 950 (Int.floor_eq_iff.mpr ⟨by norm_num, by norm_num⟩)]
  decide

/-- C8 counterexample: on the empty term sequence the renderer returns the
string `No terms to plot` (capital N) and creates no file; the returned
string is not the claimed literal `no terms to plot`. -/
theorem c8_sentinel_capitalization_counterexample :
    create_enrichment_barplot (fun _ => 0) [] none
      = .ok { ret := "No terms to plot", saved := none }
  ∧ ("No terms to plot" : String) ≠ "no terms to plot" := by
  exact ⟨rfl, by decide⟩

/-- C8 as amended: for every significance function and requested output
path, rendering an empty term sequence returns the literal sentinel string
`No terms to plot` (capitalization as in the code) rather than a file
path, and creates no image file. -/
theorem c8_empty_plot_guard (nl10 : ℚ → ℚ) (output_path : Option String) :
    create_enrichment_barplot nl10 [] output_path
      = .ok { ret := "No terms to plot", saved := none } := rfl

/-- C9: the claim says the per-bar color normalization never divides by
zero, even when every displayed significance is 0.  Evaluating the code on
a single term with p-value 0 (significance clamped to 0): the maximum
significance `max_val` is 0 because the `if neg_log_p else 1` guard only
covers the empty list, and the color normalization evaluates `0 / 0`,
raising `ZeroDivisionError` — the renderer does not run to completion. -/
theorem c9_zero_significance_division_by_zero (nl10 : ℚ → ℚ)
    (output_path : Option String) :
    create_enrichment_barplot nl10
      [{ rank := 1, name := "TERM", pValue := 0, zScore := 0,
         combinedScore := 0, genes := [] }] output_path
      = .error "float division by zero" := by
  simp [create_enrichment_barplot, pyMax, pyDiv, List.mapM, List.mapM.loop,
    Bind.bind, Except.bind]

/-- C3: for a ranked term sequence of length at least `top_n`, the
enrichment report enumerates exactly `top_n` entries, the entry at
position `i` carries the number `i + 1` (so the entries are numbered 1
through `top_n`) and the term at position `i` of the input sequence — the
report never re-sorts, it only truncates to the first `top_n` terms. -/
theorem c3_enrichment_report_truncation (allTerms : List EnrichmentTerm)
    (top_n : Nat) (h : top_n ≤ allTerms.length) :
    (perform_enrichment_entries allTerms top_n).length = top_n
  ∧ ∀ i, i < top_n →
      (perform_enrichment_entries allTerms top_n)[i]?
        = allTerms[i]?.map (fun t => (i + 1, t)) := by
  constructor
  · simp [perform_enrichment_entries, enumerate1, List.enum_length,
      List.length_take, h]
  · intro i hi
    simp only [perform_enrichment_entries, enumerate1, List.getElem?_map,
      List.getElem?_enum, List.getElem?_take, if_pos hi]
    cases allTerms[i]? with
    | none => rfl
    | some t => rfl

/-- Witness for C3: the theorem applied to a concrete ranked sequence of
three terms with `top_n = 2`: exactly two entries, numbered 1 and 2, in
input order. -/
theorem c3_enrichment_report_truncation_witness :
    (perform_enrichment_entries
      [{ rank := 1, name := "Pathway One", pValue := 1/1000, zScore := 0,
         combinedScore := 0, genes := ["TP53"] },
       { rank := 2, name := "Pathway Two", pValue := 1/100, zScore := 0,
         combinedScore := 0, genes := ["MDM2"] },
       { rank := 3, name := "Pathway Three", pValue := 1/10, zScore := 0,
         combinedScore := 0, genes := ["EGFR"] }] 2).length = 2
  ∧ (perform_enrichment_entries
      [{ rank := 1, name := "Pathway One", pValue := 1/1000, zScore := 0,
         combinedScore := 0, genes := ["TP53"] },
       { rank := 2, name := "Pathway Two", pValue := 1/100, zScore := 0,
         combinedScore := 0, genes := ["MDM2"] },
       { rank := 3, name := "Pathway Three", pValue := 1/10, zScore := 0,
         combinedScore := 0, genes := ["EGFR"] }] 2)[0]?
      = some (1, { rank := 1, name := "Pathway One", pValue := 1/1000,
                   zScore := 0, combinedScore := 0, genes := ["TP53"] }) := by
  have h := c3_enrichment_report_truncation
    [{ rank := 1, name := "Pathway One", pValue := 1/1000, zScore := 0,
       combinedScore := 0, genes := ["TP53"] },
     { rank := 2, name := "Pathway Two", pValue := 1/100, zScore := 0,
       combinedScore := 0, genes := ["MDM2"] },
     { rank := 3, name := "Pathway Three", pValue := 1/10, zScore := 0,
       combinedScore := 0, genes := ["EGFR"] }] 2 (by norm_num)
  refine ⟨h.1, ?_⟩
  rw [h.2 0 (by norm_num)]
  rfl

/-- C2: the gene-list normalization never lengthens its input; every
surviving value contains no lower-case ASCII letter (it is upper-cased),
starts and ends with a non-whitespace character (it is trimmed), and is
neither the empty string nor the literal `NAN`; the output is a sublist of
the trimmed-and-upper-cased survivors of the input (relative order is
preserved); and normalization distributes over concatenation, so duplicate
inputs produce duplicate outputs (no deduplication). -/
theorem c2_normalize_genes_properties (vals : List (Option String)) :
    (normalize_genes vals).length ≤ vals.length
  ∧ (∀ g, g ∈ normalize_genes vals →
       g ≠ "" ∧ g ≠ "NAN"
       ∧ (∀ c ∈ g.data, isAsciiLower c = false)
       ∧ (∀ c ∈ g.data.head?, pyIsSpace c = false)
       ∧ (∀ c ∈ g.data.getLast?, pyIsSpace c = false))
  ∧ (normalize_genes vals).Sublist
      ((vals.filterMap id).map (fun s => pyUpper (pyStrip s)))
  ∧ (∀ xs ys : List (Option String),
       normalize_genes (xs ++ ys) = normalize_genes xs ++ normalize_genes ys) := by
  refine ⟨?_, ?_, List.filter_sublist _, ?_⟩
  · calc (normalize_genes vals).length
        ≤ ((vals.filterMap id).map (fun s => pyUpper (pyStrip s))).length :=
          List.length_filter_le _ _
      _ = (vals.filterMap id).length := List.length_map _ _
      _ ≤ vals.length := List.length_filterMap_le _ _
  · intro g hg
    rw [normalize_genes, List.mem_filter] at hg
    obtain ⟨hmem, hp⟩ := hg
    have hne : g ≠ "" ∧ g ≠ "NAN" := by
      simp only [Bool.and_eq_true, Bool.not_eq_true', beq_eq_false_iff_ne] at hp
      exact hp
    obtain ⟨s, _, rfl⟩ := List.mem_map.mp hmem
    have hdata : (pyUpper (pyStrip s)).data = (stripChars s.data).map Char.toUpper := rfl
    refine ⟨hne.1, hne.2, ?_, ?_, ?_⟩
    · intro c hc
      rw [hdata] at hc
      obtain ⟨d, _, rfl⟩ := List.mem_map.mp hc
      exact isAsciiLower_toUpper d
    · intro c hc
      rw [hdata, List.head?_map] at hc
      cases hh : (stripChars s.data).head? with
      | none => rw [hh] at hc; exact absurd hc (by simp)
      | some d =>
        rw [hh] at hc
        have hc2 : Char.toUpper d = c := by simpa using hc
        rw [← hc2, pyIsSpace_toUpper]
        exact head?_stripChars s.data d (by rw [hh]; rfl)
    · intro c hc
      rw [hdata, List.getLast?_map] at hc
      cases hh : (stripChars s.data).getLast? with
      | none => rw [hh] at hc; exact absurd hc (by simp)
      | some d =>
        rw [hh] at hc
        have hc2 : Char.toUpper d = c := by simpa using hc
        rw [← hc2, pyIsSpace_toUpper]
        exact getLast?_stripChars s.data d (by rw [hh]; rfl)
  · intro xs ys
    simp [normalize_genes, List.filterMap_append, List.map_append,
      List.filter_append]

/-- Witness for C2: the theorem applied to a concrete raw column holding a
padded lower-case symbol, a missing cell, a whitespace-only cell, a
`nan` placeholder and a duplicate; the survivor `TP53` satisfies every
normalization property and the duplicate survives twice, in order. -/
theorem c2_normalize_genes_properties_witness :
    "TP53" ∈ normalize_genes
      [some "  tp53 ", none, some "   ", some "nan", some "tp53"]
  ∧ ("TP53" ≠ "" ∧ "TP53" ≠ "NAN"
     ∧ (∀ c ∈ ("TP53" : String).data, isAsciiLower c = false)
     ∧ (∀ c ∈ ("TP53" : String).data.head?, pyIsSpace c = false)
     ∧ (∀ c ∈ ("TP53" : String).data.getLast?, pyIsSpace c = false))
  ∧ normalize_genes [some "  tp53 ", none, some "   ", some "nan", some "tp53"]
      = ["TP53", "TP53"] :=
  ⟨by decide,
   (c2_normalize_genes_properties
     [some "  tp53 ", none, some "   ", some "nan", some "tp53"]).2.1
     "TP53" (by decide),
   by decide⟩

/-! ### read_gene_list helper lemmas -/

/-- The column the auto-detection path of `read_gene_list` settles on:
the detected alias column, else the first column. -/
def autoColumn (df : DataFrame) : String :=
  match detect_gene_column df with
  | some c => c
  | none => df.colNames.headD ""

theorem autoColumn_mem (df : DataFrame) (hne : df.colNames ≠ []) :
    autoColumn df ∈ df.colNames := by
  unfold autoColumn
  cases hdet : detect_gene_column df with
  | some c => exact List.mem_of_find?_eq_some hdet
  | none =>
    cases hcols : df.colNames with
    | nil => exact absurd hcols hne
    | cons c rest => simp [hcols]

/-- On an existing file with a supported extension and no explicit column,
`read_gene_list` succeeds and extracts from `autoColumn df`, provided the
table has at least one column. -/
theorem read_gene_list_none_eq (file_path suffix : String) (df : DataFrame)
    (hs : supportedSuffix (pyLower suffix) = true) (hne : df.colNames ≠ []) :
    read_gene_list file_path true suffix df none
      = .ok (normalize_genes (df.getCol (autoColumn df)),
             { file := file_path, total_rows := df.nRows,
               gene_column := autoColumn df,
               gene_count := (normalize_genes (df.getCol (autoColumn df))).length,
               columns := df.colNames }) := by
  have hcon : df.colNames.contains (autoColumn df) = true :=
    List.elem_eq_true_of_mem (autoColumn_mem df hne)
  unfold read_gene_list
  simp only [Bool.not_true, Bool.false_eq_true, if_false, hs, Bool.not_false,
    if_true]
  cases hdet : detect_gene_column df with
  | some c =>
    have hac : autoColumn df = c := by unfold autoColumn; rw [hdet]
    rw [hac] at hcon ⊢
    simp [hdet, hs, hcon]
    exact List.mem_of_find?_eq_some hdet
  | none =>
    cases hcols : df.colNames with
    | nil => exact absurd hcols hne
    | cons c rest =>
      have hac : autoColumn df = c := by
        unfold autoColumn; rw [hdet, hcols]; rfl
      rw [hac] at hcon ⊢
      simp [hdet, hs, hcols, hcon]

theorem mem_infix_pyListReprCore (cols : List String) (col : String)
    (h : col ∈ cols) : col.data <:+: pyListReprCore cols := by
  induction cols with
  | nil => exact absurd h (List.not_mem_nil col)
  | cons c rest ih =>
    cases rest with
    | nil =>
      have hc : col = c := by
        rcases List.mem_cons.mp h with hh | hh
        · exact hh
        · exact absurd hh (List.not_mem_nil col)
      subst hc
      exact ⟨['\x27'], ['\x27'], by simp [pyListReprCore]⟩
    | cons c2 rest2 =>
      rcases List.mem_cons.mp h with hh | hh
      · subst hh
        exact ⟨['\x27'], ['\x27', ',', ' '] ++ pyListReprCore (c2 :: rest2),
          by simp [pyListReprCore]⟩
      · obtain ⟨s, t, hst⟩ := ih hh
        exact ⟨'\x27' :: (c.data ++ ['\x27', ',', ' ']) ++ s, t,
          by simp [pyListReprCore, ← hst]⟩

/-- Every available column name occurs verbatim inside the
column-not-found message. -/
theorem mem_infix_columnNotFoundMsg (c : String) (cols : List String)
    (col : String) (h : col ∈ cols) :
    col.data <:+: (columnNotFoundMsg c cols).data := by
  obtain ⟨s, t, hst⟩ := mem_infix_pyListReprCore cols col h
  refine ⟨("Column \x27" ++ c ++ "\x27 does not exist. Available columns: ").data
    ++ '[' :: s, t ++ [']'], ?_⟩
  simp only [columnNotFoundMsg, pyListRepr, String.data_append, ← hst]
  simp [String.data_append]

/-- On an existing file with a supported extension, a zero-column parsed
table (e.g. an empty Excel sheet) with no explicit column makes
`df.columns[0]` raise IndexError. -/
theorem read_gene_list_none_nil (file_path suffix : String) (df : DataFrame)
    (hs : supportedSuffix (pyLower suffix) = true) (hnil : df.colNames = []) :
    read_gene_list file_path true suffix df none
      = .error (.indexError "index 0 is out of bounds for axis 0 with size 0") := by
  have hdet : detect_gene_column df = none := by
    rw [detect_gene_column, hnil]
    rfl
  unfold read_gene_list
  simp [hs, hdet, hnil]

/-- C5 counterexample: an existing `.xlsx` file whose (empty) sheet parses
to a zero-column table, with no explicit column given: the extraction
raises the IndexError of `df.columns[0]` — a hard error although the path
resolves, the extension is supported and no explicit column name was
given, so the three enumerated cases are not exhaustive and the claim as
stated fails at this input. -/
theorem c5_zero_column_index_error_counterexample :
    read_gene_list "empty.xlsx" true ".xlsx" { cols := [], nRows := 0 } none
      = .error (.indexError "index 0 is out of bounds for axis 0 with size 0")
  ∧ ReadError.isEnumeratedKind
      (.indexError "index 0 is out of bounds for axis 0 with size 0") = false := by
  refine ⟨?_, rfl⟩
  exact read_gene_list_none_nil "empty.xlsx" ".xlsx"
    { cols := [], nRows := 0 } (by decide) rfl

/-- C5 as amended: the tabular gene extraction raises a hard error in
exactly four cases — missing path (FileNotFound), unsupported extension
(UnsupportedFormat), an explicitly given column absent from the table
(ColumnNotFound, whose message contains every available column name
verbatim), and additionally an IndexError when no column name is given
and the parsed table has no columns — and in no other case. -/
theorem c5_read_gene_list_error_cases (file_path : String) (pathExists : Bool)
    (suffix : String) (df : DataFrame) (gene_column : Option String) :
    (pathExists = false →
       read_gene_list file_path pathExists suffix df gene_column
         = .error (.fileNotFound ("File not found: " ++ file_path)))
  ∧ (pathExists = true → supportedSuffix (pyLower suffix) = false →
       read_gene_list file_path pathExists suffix df gene_column
         = .error (.unsupportedFormat
             ("Unsupported file format: " ++ pyLower suffix)))
  ∧ (∀ c, pathExists = true → supportedSuffix (pyLower suffix) = true →
       gene_column = some c → df.colNames.contains c = false →
       read_gene_list file_path pathExists suffix df gene_column
         = .error (.columnNotFound (columnNotFoundMsg c df.colNames)))
  ∧ (∀ c col, col ∈ df.colNames →
       col.data <:+: (columnNotFoundMsg c df.colNames).data)
  ∧ (pathExists = true → supportedSuffix (pyLower suffix) = true →
       gene_column = none → df.colNames = [] →
       read_gene_list file_path pathExists suffix df gene_column
         = .error (.indexError "index 0 is out of bounds for axis 0 with size 0"))
  ∧ (∀ e, read_gene_list file_path pathExists suffix df gene_column = .error e →
       (pathExists = false
          ∧ e = .fileNotFound ("File not found: " ++ file_path))
     ∨ (supportedSuffix (pyLower suffix) = false
          ∧ e = .unsupportedFormat ("Unsupported file format: " ++ pyLower suffix))
     ∨ (∃ c, gene_column = some c ∧ df.colNames.contains c = false
          ∧ e = .columnNotFound (columnNotFoundMsg c df.colNames))
     ∨ (gene_column = none ∧ df.colNames = []
          ∧ e = .indexError "index 0 is out of bounds for axis 0 with size 0")) := by
  refine ⟨?_, ?_, ?_, fun c col h => mem_infix_columnNotFoundMsg c df.colNames col h,
    ?_, ?_⟩
  · intro hp
    subst hp
    simp [read_gene_list]
  · intro hp hs
    subst hp
    simp [read_gene_list, hs]
  · intro c hp hs hg hcon
    subst hp hg
    have hcon2 : c ∉ df.colNames := by simpa using hcon
    simp [read_gene_list, hs, hcon2]
  · intro hp hs hg hnil
    subst hp hg
    exact read_gene_list_none_nil file_path suffix df hs hnil
  · intro e he
    by_cases hp : pathExists = false
    · subst hp
      simp [read_gene_list] at he
      exact Or.inl ⟨rfl, he.symm⟩
    · have hp2 : pathExists = true := by
        cases pathExists
        · exact absurd rfl hp
        · rfl
      subst hp2
      by_cases hs : supportedSuffix (pyLower suffix) = false
      · simp [read_gene_list, hs] at he
        exact Or.inr (Or.inl ⟨hs, he.symm⟩)
      · have hs2 : supportedSuffix (pyLower suffix) = true := by
          cases hsv : supportedSuffix (pyLower suffix)
          · exact absurd hsv hs
          · rfl
        cases hg : gene_column with
        | none =>
          rw [hg] at he
          cases hcn : df.colNames with
          | nil =>
            rw [read_gene_list_none_nil file_path suffix df hs2 hcn] at he
            exact Or.inr (Or.inr (Or.inr ⟨rfl, rfl, (Except.error.inj he).symm⟩))
          | cons c0 rest =>
            rw [read_gene_list_none_eq file_path suffix df hs2
              (by rw [hcn]; simp)] at he
            exact absurd he (by simp)
        | some c =>
          cases hcon : df.colNames.contains c with
          | false =>
            have hcon2 : c ∉ df.colNames := by simpa using hcon
            rw [hg] at he
            simp [read_gene_list, hs2, hcon2] at he
            exact Or.inr (Or.inr (Or.inl ⟨c, rfl, hcon, he.symm⟩))
          | true =>
            have hcon2 : c ∈ df.colNames := by simpa using hcon
            rw [hg] at he
            simp [read_gene_list, hs2, hcon2] at he

/-- Witness for C5: the theorem applied to a one-column table read from an
existing `.csv` file with the explicit column `missing`: the result is the
ColumnNotFound error and the available column `sample` occurs in its
message. -/
theorem c5_read_gene_list_error_cases_witness :
    read_gene_list "genes.csv" true ".csv"
        { cols := [("sample", [some "tp53"])], nRows := 1 } (some "missing")
      = .error (.columnNotFound (columnNotFoundMsg "missing" ["sample"]))
  ∧ ("sample" : String).data
      <:+: (columnNotFoundMsg "missing" ["sample"]).data := by
  have h := c5_read_gene_list_error_cases "genes.csv" true ".csv"
    { cols := [("sample", [some "tp53"])], nRows := 1 } (some "missing")
  exact ⟨h.2.2.1 "missing" rfl (by decide) rfl (by decide),
    h.2.2.2.1 "missing" "sample" (by decide)⟩

/-- C7: when no explicit column is given (on an existing file with a
supported extension), the chosen column is the first column in table order
passing the alias test — which accepts exactly the fixed alias list up to
case — and otherwise the table's first column; in particular a column
literally named `Gene_Symbol` is selected whenever every other column
fails the alias test, regardless of position. -/
theorem c7_column_autodetection (file_path suffix : String) (df : DataFrame)
    (hs : supportedSuffix (pyLower suffix) = true) :
    (∀ i (hi : i < df.colNames.length),
       aliasMatch (df.colNames.get ⟨i, hi⟩) = true →
       (∀ j (hj : j < i), aliasMatch (df.colNames.get ⟨j, Nat.lt_trans hj hi⟩) = false) →
       ∃ genes md, read_gene_list file_path true suffix df none = .ok (genes, md)
         ∧ md.gene_column = df.colNames.get ⟨i, hi⟩)
  ∧ ((∀ c ∈ df.colNames, aliasMatch c = false) → df.colNames ≠ [] →
       ∃ genes md, read_gene_list file_path true suffix df none = .ok (genes, md)
         ∧ md.gene_column = df.colNames.headD "")
  ∧ ("Gene_Symbol" ∈ df.colNames →
       (∀ c ∈ df.colNames, c ≠ "Gene_Symbol" → aliasMatch c = false) →
       ∃ genes md, read_gene_list file_path true suffix df none = .ok (genes, md)
         ∧ md.gene_column = "Gene_Symbol") := by
  refine ⟨?_, ?_, ?_⟩
  · intro i hi hp hmin
    have hne : df.colNames ≠ [] := by
      intro h
      rw [h] at hi
      exact absurd hi (by simp)
    have hdet : detect_gene_column df = some (df.colNames.get ⟨i, hi⟩) :=
      find?_eq_get_of_first aliasMatch df.colNames i hi hp hmin
    have hac : autoColumn df = df.colNames.get ⟨i, hi⟩ := by
      unfold autoColumn; rw [hdet]
    exact ⟨_, _, read_gene_list_none_eq file_path suffix df hs hne, hac⟩
  · intro hall hne
    have hdet : detect_gene_column df = none :=
      List.find?_eq_none.mpr (fun c hc => by rw [hall c hc]; simp)
    have hac : autoColumn df = df.colNames.headD "" := by
      unfold autoColumn
      rw [hdet]
    exact ⟨_, _, read_gene_list_none_eq file_path suffix df hs hne, hac⟩
  · intro hmem hother
    have hne : df.colNames ≠ [] := fun h => by
      rw [h] at hmem
      exact absurd hmem (List.not_mem_nil _)
    have hdet : detect_gene_column df = some "Gene_Symbol" := by
      cases hd : detect_gene_column df with
      | none =>
        have := List.find?_eq_none.mp hd "Gene_Symbol" hmem
        exact absurd (by decide : aliasMatch "Gene_Symbol" = true) this
      | some x =>
        have hx_mem : x ∈ df.colNames := List.mem_of_find?_eq_some hd
        have hx_alias : aliasMatch x = true := List.find?_some hd
        by_cases hxe : x = "Gene_Symbol"
        · rw [hxe]
        · exact absurd hx_alias (by rw [hother x hx_mem hxe]; simp)
    have hac : autoColumn df = "Gene_Symbol" := by
      unfold autoColumn; rw [hdet]
    exact ⟨_, _, read_gene_list_none_eq file_path suffix df hs hne, hac⟩

/-- Witness for C7: the theorem applied to a table whose second column is
literally `Gene_Symbol` between two non-alias columns: it is selected. -/
theorem c7_column_autodetection_witness :
    ∃ genes md, read_gene_list "genes.csv" true ".csv"
        { cols := [("cells", [some "c1"]), ("Gene_Symbol", [some "tp53"]),
                   ("score", [some "1"])], nRows := 1 } none
      = .ok (genes, md) ∧ md.gene_column = "Gene_Symbol" :=
  (c7_column_autodetection "genes.csv" ".csv"
    { cols := [("cells", [some "c1"]), ("Gene_Symbol", [some "tp53"]),
               ("score", [some "1"])], nRows := 1 } (by decide)).2.2
    (by decide) (by decide)

/-- C10: with auto-detection (no explicit column) on a table with at least
one column, the extraction never fails with the ColumnNotFound error: the
detected or fallback column is always present in the table, so that error
branch is reachable only for explicitly supplied column names. -/
theorem c10_no_column_error_on_autodetect (file_path : String)
    (pathExists : Bool) (suffix : String) (df : DataFrame)
    (hne : df.colNames ≠ []) (msg : String) :
    read_gene_list file_path pathExists suffix df none
      ≠ .error (.columnNotFound msg) := by
  cases pathExists with
  | false =>
    simp [read_gene_list]
  | true =>
    cases hs : supportedSuffix (pyLower suffix) with
    | false =>
      simp [read_gene_list, hs]
    | true =>
      rw [read_gene_list_none_eq file_path suffix df hs hne]
      simp

/-- Witness for C10: the theorem applied to a concrete one-column table
with no alias column: no message can make the result a ColumnNotFound
error. -/
theorem c10_no_column_error_on_autodetect_witness :
    read_gene_list "genes.csv" true ".csv"
        { cols := [("sample", [some "tp53"])], nRows := 1 } none
      ≠ .error (.columnNotFound "Column does not exist") :=
  c10_no_column_error_on_autodetect "genes.csv" true ".csv"
    { cols := [("sample", [some "tp53"])], nRows := 1 } (by decide)
    "Column does not exist"

/-- C6: with a non-empty edge list the pair report is built from the first
edge whose endpoint pair matches the two upper-cased query symbols in
either order; when no edge matches, the output is the
no-direct-interaction text, which differs from the no-interaction-data
text produced for a falsy (absent or empty) edge list; and on the concrete
instance of one edge (A, B, score 0.8) queried as geneA = `B`,
geneB = `a`, the edge is matched and reported with score 0.800 and the
high-confidence band. -/
theorem c6_pair_interaction_matching (gene_a gene_b : String)
    (items : List InteractionEdge) :
    explain_mechanism gene_a gene_b (some []) = no_data_msg gene_a gene_b
  ∧ explain_mechanism gene_a gene_b none = no_data_msg gene_a gene_b
  ∧ (∀ i (hi : i < items.length),
       matches_pair gene_a gene_b (items.get ⟨i, hi⟩) = true →
       (∀ j (hj : j < i),
          matches_pair gene_a gene_b (items.get ⟨j, Nat.lt_trans hj hi⟩) = false) →
       explain_mechanism gene_a gene_b (some items)
         = joinLines (interaction_report_lines gene_a gene_b (items.get ⟨i, hi⟩)))
  ∧ (items ≠ [] → (∀ e ∈ items, matches_pair gene_a gene_b e = false) →
       explain_mechanism gene_a gene_b (some items) = no_direct_msg gene_a gene_b)
  ∧ no_direct_msg gene_a gene_b ≠ no_data_msg gene_a gene_b
  ∧ (matches_pair "B" "a"
       { preferredName_A := "A", preferredName_B := "B", score := 8/10,
         channels := [] } = true
     ∧ explain_mechanism "B" "a"
         (some [{ preferredName_A := "A", preferredName_B := "B", score := 8/10,
                  channels := [] }])
         = joinLines (interaction_report_lines "B" "a"
             { preferredName_A := "A", preferredName_B := "B", score := 8/10,
               channels := [] })
     ∧ format_score (8/10) = "0.800 (high confidence)"
     ∧ (interaction_report_lines "B" "a"
          { preferredName_A := "A", preferredName_B := "B", score := 8/10,
            channels := [] })[2]?
         = some "### Combined Score: 0.800 (high confidence)") := by
  have hfs : format_score (8/10) = "0.800 (high confidence)" := by
    rw [format_score, if_neg (by norm_num), if_pos (by norm_num),
      formatFixed3_eval (8/10) 800 (Int.floor_eq_iff.mpr ⟨by norm_num, by norm_num⟩)]
    decide
  refine ⟨rfl, rfl, ?_, ?_, ?_, by decide, rfl, hfs, ?_⟩
  · intro i hi hp hmin
    have hne : items ≠ [] := by
      intro h
      rw [h] at hi
      exact absurd hi (by simp)
    have hie : items.isEmpty = false := by
      simp [List.isEmpty_iff, hne]
    have hfind := find?_eq_get_of_first (matches_pair gene_a gene_b) items i hi hp hmin
    rw [explain_mechanism]
    rw [hie]
    simp only [Bool.false_eq_true, if_false, hfind]
  · intro hne hall
    have hie : items.isEmpty = false := by
      simp [List.isEmpty_iff, hne]
    have hfind : items.find? (matches_pair gene_a gene_b) = none :=
      List.find?_eq_none.mpr (fun e he => by rw [hall e he]; simp)
    rw [explain_mechanism]
    rw [hie]
    simp only [Bool.false_eq_true, if_false, hfind]
  · intro h
    have h2 := congrArg (fun s : String => s.data[3]?) h
    simp only [no_direct_msg, no_data_msg, String.data_append,
      List.append_assoc] at h2
    exact absurd (show some 'd' = some 'i' from h2) (by decide)
  · rw [show (interaction_report_lines "B" "a"
        { preferredName_A := "A", preferredName_B := "B", score := 8/10,
          channels := [] })[2]?
      = some ("### Combined Score: " ++ format_score (8/10)) from rfl, hfs]
    decide

/-- Witness for C6: the theorem applied to the singleton edge list of the
concrete example, discharging the first-match hypotheses at index 0. -/
theorem c6_pair_interaction_matching_witness :
    explain_mechanism "B" "a"
        (some [{ preferredName_A := "A", preferredName_B := "B", score := 8/10,
                 channels := [] }])
      = joinLines (interaction_report_lines "B" "a"
          { preferredName_A := "A", preferredName_B := "B", score := 8/10,
            channels := [] }) :=
  (c6_pair_interaction_matching "B" "a"
    [{ preferredName_A := "A", preferredName_B := "B", score := 8/10,
       channels := [] }]).2.2.1 0 (by norm_num) (by decide)
    (fun j hj => absurd hj (by omega))

end PathwayAgent
